import Mathlib

/-!
Verification of `deploy_nim_sagemaker.py`: a shallow embedding of the
deployment script in Lean 4 together with proofs of its specified
properties.

The script talks to external AWS/SageMaker services.  Those services are
modelled as an oracle record of functions returning `Except PyExc α`:
an `.error` result stands for the Python call raising an exception, an
`.ok` result for a normal return.  Python control flow (try/except,
early return, file write) is embedded as explicit data: `deploy_model`
returns an `Option EndpointInfo` (the `None` failure signal) together
with the list of external boundary calls it issued, and `main` returns
a `MainOutcome` recording the run result (an uncaught exception or a
normal return), the summary file write (if any), and the boundary-call
trace.
-/

/-- A Python exception: the script distinguishes `botocore` `ClientError`
from every other `Exception`, but catches both. -/
inductive PyExc where
  | clientError (msg : String)
  | other (msg : String)
deriving DecidableEq, Repr

/-- `sagemaker.Session()`: the only attribute the script reads is
`boto_region_name`. -/
structure Session where
  boto_region_name : String
deriving DecidableEq, Repr

/-- The JumpStart model specs object returned by `get_model_specs`; the
script only reads `.model_version`. -/
structure JumpStartSpecs where
  model_version : String
deriving DecidableEq, Repr

/-- Opaque handle for a constructed `sagemaker.model.Model`. -/
structure ModelHandle where
  handle : Nat
deriving DecidableEq, Repr

/-- Opaque handle for the predictor returned by `model.deploy`. -/
structure Predictor where
  handle : Nat
deriving DecidableEq, Repr

/-- One call across the external service boundary, with the arguments
the script passed.  `modelCreate` records `(image_uri, model_data, role)`;
`modelDeploy` records `(initial_instance_count, instance_type,
endpoint_name)`. -/
inductive BoundaryCall where
  | getModelSpecs (model_id region : String)
  | modelUrisRetrieve (model_id model_version region : String)
  | imageUrisRetrieve (model_id model_version region : String)
  | modelCreate (image_uri model_data role : String)
  | modelDeploy (initial_instance_count : Nat) (instance_type endpoint_name : String)
  | deleteModel
deriving DecidableEq, Repr

/-- The external AWS services consumed by the script.  Each field is one
SDK entry point; `.error` models that call raising. -/
structure AwsOracle where
  get_model_specs : String → String → Except PyExc JumpStartSpecs
  model_uris_retrieve : String → String → String → Except PyExc String
  image_uris_retrieve : String → String → String → Except PyExc String
  model_create : String → String → String → Except PyExc ModelHandle
  model_deploy : ModelHandle → Nat → String → String → Except PyExc Predictor
  delete_model : Predictor → Except PyExc Unit

/-- The process environment: `os.getenv` lookups and `os.getcwd()`. -/
structure PyEnv where
  getenv : String → Option String
  cwd : String

def NEMOTRON_MODEL_ID : String := "nvidia-nemotron-nano-8b-nim"

def EMBED_MODEL_ID : String := "nvidia-llama3-2-nv-embedqa-1b-v2-nim"

/-- `os.getenv(key, default)`: the default is used exactly when the
variable is unset. -/
def pyGetenv (env : PyEnv) (key default : String) : String :=
  (env.getenv key).getD default

/-- `LLM_INSTANCE = os.getenv("NIM_LLM_INSTANCE_TYPE", "ml.g5.2xlarge")`. -/
def LLM_INSTANCE (env : PyEnv) : String :=
  pyGetenv env "NIM_LLM_INSTANCE_TYPE" "ml.g5.2xlarge"

/-- `EMBED_INSTANCE = os.getenv("NIM_EMBED_INSTANCE_TYPE", "ml.g5.xlarge")`. -/
def EMBED_INSTANCE (env : PyEnv) : String :=
  pyGetenv env "NIM_EMBED_INSTANCE_TYPE" "ml.g5.xlarge"

def DEFAULT_EXECUTION_ROLE : String := "arn:aws:iam::112571254920:role/voclabs"

/-- `EXECUTION_ROLE = os.getenv("SAGEMAKER_EXECUTION_ROLE", DEFAULT_EXECUTION_ROLE)`. -/
def EXECUTION_ROLE (env : PyEnv) : String :=
  pyGetenv env "SAGEMAKER_EXECUTION_ROLE" DEFAULT_EXECUTION_ROLE

/-- Python `str.replace("_", "-")`: with a single-character pattern this
is a character map over the string's code points. -/
def replaceUnderscores (s : String) : String :=
  ⟨s.data.map (fun c => if c = '_' then '-' else c)⟩

/-- Python `s[:63]`: the first 63 code points. -/
def take63 (s : String) : String :=
  ⟨s.data.take 63⟩

/-- The endpoint-name computation in `deploy_model` (lines 68-69):
`f"{endpoint_prefix}-{model_id}-{model_version}".replace("_", "-")`
then truncation to 63 characters. -/
def endpoint_name_of (endpoint_pfx model_id model_version : String) : String :=
  take63 (replaceUnderscores (endpoint_pfx ++ "-" ++ model_id ++ "-" ++ model_version))

/-- The dataclass `EndpointInfo`: the five stored fields, in declaration
order.  `endpoint_url` is a derived property, not a field. -/
structure EndpointInfo where
  model_id : String
  model_version : String
  endpoint_name : String
  instance_type : String
  region : String
deriving DecidableEq, Repr

/-- The `endpoint_url` property of `EndpointInfo` (lines 45-50): computed
from `region` and `endpoint_name` alone, never stored. -/
def EndpointInfo.endpoint_url (e : EndpointInfo) : String :=
  "https://runtime.sagemaker." ++ e.region ++ ".amazonaws.com/" ++
    ("endpoints/" ++ e.endpoint_name ++ "/invocations")

/-- `resolve_model_version` (lines 53-56): calls `get_model_specs` and
returns its `model_version`; any exception propagates (no try/except). -/
def resolve_model_version (oracle : AwsOracle) (model_id region : String) :
    Except PyExc String :=
  match oracle.get_model_specs model_id region with
  | .error e => .error e
  | .ok specs => .ok specs.model_version

/-- `deploy_model` (lines 59-122): the three-step deploy sequence plus
the post-deploy `delete_model`, all inside one `try` whose handlers catch
every exception and fall through to `return None`.  The first component
is the Python return value (`None` = `none`); the second is the trace of
boundary calls issued, in order. -/
def deploy_model (oracle : AwsOracle) (role : String) (sess : Session)
    (model_id model_version instance_type endpoint_pfx : String) :
    Option EndpointInfo × List BoundaryCall :=
  let region := sess.boto_region_name
  let endpoint_name := endpoint_name_of endpoint_pfx model_id model_version
  let t1 := [BoundaryCall.modelUrisRetrieve model_id model_version region]
  match oracle.model_uris_retrieve model_id model_version region with
  | .error _ => (none, t1)
  | .ok model_uri =>
    let t2 := t1 ++ [BoundaryCall.imageUrisRetrieve model_id model_version region]
    match oracle.image_uris_retrieve model_id model_version region with
    | .error _ => (none, t2)
    | .ok image_uri =>
      let t3 := t2 ++ [BoundaryCall.modelCreate image_uri model_uri role]
      match oracle.model_create image_uri model_uri role with
      | .error _ => (none, t3)
      | .ok mdl =>
        let t4 := t3 ++ [BoundaryCall.modelDeploy 1 instance_type endpoint_name]
        match oracle.model_deploy mdl 1 instance_type endpoint_name with
        | .error _ => (none, t4)
        | .ok predictor =>
          let t5 := t4 ++ [BoundaryCall.deleteModel]
          match oracle.delete_model predictor with
          | .error _ => (none, t5)
          | .ok _ =>
            (some { model_id := model_id, model_version := model_version,
                    endpoint_name := endpoint_name,
                    instance_type := instance_type, region := region }, t5)

/-- `endpoint.__dict__` as serialized by `json.dump`: the five dataclass
fields in declaration order; the `endpoint_url` property is not part of
the instance dictionary. -/
def endpoint_dict (e : EndpointInfo) : List (String × String) :=
  [("model_id", e.model_id), ("model_version", e.model_version),
   ("endpoint_name", e.endpoint_name), ("instance_type", e.instance_type),
   ("region", e.region)]

/-- The summary-file write at lines 170-172: `open(path, "w")` on
`os.path.join(os.getcwd(), "nim_endpoints.json")` and `json.dump` of the
list of `__dict__`s.  `truncate = true` records that mode `"w"`
truncates/overwrites any existing file without prompting. -/
structure SummaryFile where
  dir : String
  filename : String
  truncate : Bool
  content : List (List (String × String))
deriving DecidableEq, Repr

/-- What a completed (non-raising) run of `main` produced. -/
structure MainResult where
  endpoints : List EndpointInfo
  summary : Option SummaryFile
  printed_failure : Bool
deriving DecidableEq, Repr

/-- The observable outcome of running `main`: either an uncaught
exception (`.error`) or a normal return, plus the boundary-call trace. -/
structure MainOutcome where
  result : Except PyExc MainResult
  calls : List BoundaryCall

/-- The process exit status: Python exits 0 on a normal return from
`main` and 1 on an uncaught exception (traceback). -/
def processExitCode (o : MainOutcome) : Nat :=
  match o.result with
  | .error _ => 1
  | .ok _ => 0

namespace NimDeploy

/-- `main` (lines 125-179): resolve both versions (uncaught on failure),
deploy each model in declaration order appending only successes, then
either report failure (empty list: print and plain `return`) or write
the summary file. -/
def main (env : PyEnv) (oracle : AwsOracle) (session : Session) : MainOutcome :=
  let region := session.boto_region_name
  let c1 := [BoundaryCall.getModelSpecs NEMOTRON_MODEL_ID region]
  match resolve_model_version oracle NEMOTRON_MODEL_ID region with
  | .error e => { result := .error e, calls := c1 }
  | .ok llm_version =>
    let c2 := c1 ++ [BoundaryCall.getModelSpecs EMBED_MODEL_ID region]
    match resolve_model_version oracle EMBED_MODEL_ID region with
    | .error e => { result := .error e, calls := c2 }
    | .ok embed_version =>
      let llm_r := deploy_model oracle (EXECUTION_ROLE env) session
        NEMOTRON_MODEL_ID llm_version (LLM_INSTANCE env) "mindbridge-llm"
      let embed_r := deploy_model oracle (EXECUTION_ROLE env) session
        EMBED_MODEL_ID embed_version (EMBED_INSTANCE env) "mindbridge-embed"
      let endpoints := llm_r.1.toList ++ embed_r.1.toList
      let calls := c2 ++ llm_r.2 ++ embed_r.2
      if endpoints.isEmpty then
        { result := .ok { endpoints := endpoints, summary := none,
                          printed_failure := true },
          calls := calls }
      else
        { result := .ok { endpoints := endpoints,
                          summary := some { dir := env.cwd,
                                            filename := "nim_endpoints.json",
                                            truncate := true,
                                            content := endpoints.map endpoint_dict },
                          printed_failure := false },
          calls := calls }

end NimDeploy

/-! Concrete environments, sessions and oracles used to witness the
theorems on satisfiable inputs. -/

/-- An environment with no variables set, `cwd = "/work"`. -/
def noEnv : PyEnv := { getenv := fun _ => none, cwd := "/work" }

/-- A session in region `us-east-1`. -/
def usEast : Session := { boto_region_name := "us-east-1" }

/-- An oracle on which every external call succeeds. -/
def okOracle : AwsOracle :=
  { get_model_specs := fun _ _ => .ok { model_version := "1.0.0" }
    model_uris_retrieve := fun _ _ _ => .ok "s3://artifact"
    image_uris_retrieve := fun _ _ _ => .ok "ecr://image"
    model_create := fun _ _ _ => .ok { handle := 7 }
    model_deploy := fun _ _ _ _ => .ok { handle := 8 }
    delete_model := fun _ => .ok () }

/-- An oracle whose version resolution succeeds but whose artifact
retrieval raises, so every deployment fails. -/
def deployFailOracle : AwsOracle :=
  { okOracle with
    model_uris_retrieve := fun _ _ _ => .error (.clientError "AccessDenied") }

/-- An oracle whose catalogue lookup raises. -/
def resolveFailOracle : AwsOracle :=
  { okOracle with
    get_model_specs := fun _ _ => .error (.clientError "UnknownModel") }

/-- An oracle on which only the reasoning model's artifact retrieval
succeeds: the embedding model's deployment fails. -/
def embedFailOracle : AwsOracle :=
  { okOracle with
    model_uris_retrieve := fun m _ _ =>
      if m = NEMOTRON_MODEL_ID then .ok "s3://artifact"
      else .error (.clientError "CapacityError") }

/-- An oracle on which only the embedding model's artifact retrieval
succeeds: the reasoning model's deployment fails. -/
def llmFailOracle : AwsOracle :=
  { okOracle with
    model_uris_retrieve := fun m _ _ =>
      if m = EMBED_MODEL_ID then .ok "s3://artifact"
      else .error (.clientError "CapacityError") }

/-- An oracle on which deployment reaches a live endpoint but the
post-deploy `delete_model` cleanup raises. -/
def deleteFailOracle : AwsOracle :=
  { okOracle with delete_model := fun _ => .error (.other "delete failed") }

/-- An environment that only sets the execution-role override. -/
def setRoleEnv : PyEnv :=
  { getenv := fun k =>
      if k = "SAGEMAKER_EXECUTION_ROLE" then some "arn:aws:iam::000000000000:role/custom"
      else none,
    cwd := "/work" }

/-- The record `deploy_model` produces for the reasoning model on a fully
successful run in `us-east-1` with default configuration. -/
def llmRec : EndpointInfo :=
  { model_id := NEMOTRON_MODEL_ID, model_version := "1.0.0",
    endpoint_name := endpoint_name_of "mindbridge-llm" NEMOTRON_MODEL_ID "1.0.0",
    instance_type := "ml.g5.2xlarge", region := "us-east-1" }

/-- The record `deploy_model` produces for the embedding model on a fully
successful run in `us-east-1` with default configuration. -/
def embedRec : EndpointInfo :=
  { model_id := EMBED_MODEL_ID, model_version := "1.0.0",
    endpoint_name := endpoint_name_of "mindbridge-embed" EMBED_MODEL_ID "1.0.0",
    instance_type := "ml.g5.xlarge", region := "us-east-1" }

/-- The `MainResult` of a run in which both deployments failed. -/
def emptyResult : MainResult :=
  { endpoints := [], summary := none, printed_failure := true }

/-- The `MainResult` of a fully successful default-configuration run. -/
def fullResult : MainResult :=
  { endpoints := [llmRec, embedRec],
    summary := some { dir := "/work", filename := "nim_endpoints.json",
                      truncate := true,
                      content := [llmRec, embedRec].map endpoint_dict },
    printed_failure := false }


/-! Helper lemmas. -/

/-- Two strings with equal underlying character lists are equal. -/
theorem string_eq_of_data {a b : String} (h : a.data = b.data) : a = b := by
  cases a; cases b; simp only at h; rw [h]

/-- Whenever `deploy_model` returns a record, the record's fields are
exactly the inputs plus the computed endpoint name and session region. -/
theorem deploy_model_some (oracle : AwsOracle) (role : String) (sess : Session)
    (model_id model_version instance_type endpoint_pfx : String) (info : EndpointInfo)
    (h : (deploy_model oracle role sess model_id model_version instance_type
            endpoint_pfx).1 = some info) :
    info = { model_id := model_id, model_version := model_version,
             endpoint_name := endpoint_name_of endpoint_pfx model_id model_version,
             instance_type := instance_type, region := sess.boto_region_name } := by
  unfold deploy_model at h
  rcases h1 : oracle.model_uris_retrieve model_id model_version sess.boto_region_name
      with e | u <;> simp only [h1] at h
  · exact absurd h (by simp)
  rcases h2 : oracle.image_uris_retrieve model_id model_version sess.boto_region_name
      with e | i <;> simp only [h2] at h
  · exact absurd h (by simp)
  rcases h3 : oracle.model_create i u role with e | mdl <;> simp only [h3] at h
  · exact absurd h (by simp)
  rcases h4 : oracle.model_deploy mdl 1 instance_type
      (endpoint_name_of endpoint_pfx model_id model_version) with e | p <;>
    simp only [h4] at h
  · exact absurd h (by simp)
  rcases h5 : oracle.delete_model p with e | u5 <;> simp only [h5] at h
  · exact absurd h (by simp)
  simpa using h.symm

/-- C4: for every `(prefix, catalogModelId, version)` the endpoint name is
the hyphen-joined concatenation with each underscore replaced by a hyphen,
truncated to the first 63 characters; hence its length is at most 63 and
it contains no underscore. -/
theorem endpoint_name_normalized (endpoint_pfx model_id model_version : String) :
    endpoint_name_of endpoint_pfx model_id model_version =
      take63 (replaceUnderscores
        (endpoint_pfx ++ "-" ++ model_id ++ "-" ++ model_version)) ∧
    (endpoint_name_of endpoint_pfx model_id model_version).length ≤ 63 ∧
    '_' ∉ (endpoint_name_of endpoint_pfx model_id model_version).data := by
  refine ⟨rfl, ?_, ?_⟩
  · show ((replaceUnderscores _).data.take 63).length ≤ 63
    simp [List.length_take]
  · intro hmem
    have hmem' : '_' ∈ (replaceUnderscores
        (endpoint_pfx ++ "-" ++ model_id ++ "-" ++ model_version)).data :=
      List.take_subset _ _ hmem
    simp only [replaceUnderscores, List.mem_map] at hmem'
    obtain ⟨c, _, hc⟩ := hmem'
    by_cases hcu : c = '_' <;> simp [hcu] at hc

/-- C5: endpoint naming is deterministic — equal input triples give the
same name, and every record `deploy_model` returns carries exactly the
name computed from its input triple. -/
theorem endpoint_name_deterministic (p₁ m₁ v₁ p₂ m₂ v₂ : String)
    (hp : p₁ = p₂) (hm : m₁ = m₂) (hv : v₁ = v₂) :
    endpoint_name_of p₁ m₁ v₁ = endpoint_name_of p₂ m₂ v₂ ∧
    ∀ (oracle : AwsOracle) (role : String) (sess : Session)
      (instance_type : String) (info : EndpointInfo),
      (deploy_model oracle role sess m₁ v₁ instance_type p₁).1 = some info →
      info.endpoint_name = endpoint_name_of p₁ m₁ v₁ := by
  subst hp hm hv
  refine ⟨rfl, ?_⟩
  intro oracle role sess instance_type info h
  rw [deploy_model_some oracle role sess m₁ v₁ instance_type p₁ info h]

/-- C8: the derived endpoint URL is a function of `region` and
`endpoint_name` alone (it is computed by `endpoint_url`, not stored in
the record), and it has the shape
`https://runtime.sagemaker.<region>.amazonaws.com/endpoints/<name>/invocations`. -/
theorem endpoint_url_from_region_and_name (e₁ e₂ : EndpointInfo)
    (hr : e₁.region = e₂.region) (hn : e₁.endpoint_name = e₂.endpoint_name) :
    e₁.endpoint_url = e₂.endpoint_url ∧
    e₁.endpoint_url = "https://runtime.sagemaker." ++ e₁.region ++
      ".amazonaws.com/endpoints/" ++ e₁.endpoint_name ++ "/invocations" := by
  constructor
  · simp [EndpointInfo.endpoint_url, hr, hn]
  · apply string_eq_of_data
    simp only [EndpointInfo.endpoint_url, String.data_append, List.append_assoc]
    change _ ++ (_ ++ (".amazonaws.com/".data ++ ("endpoints/".data ++ _))) = _
    rw [← List.append_assoc ".amazonaws.com/".data "endpoints/".data]
    rfl

/-- Every run of `deploy_model` issues the model-artifact retrieval call
(so the deployment is always attempted, whatever the oracle answers). -/
theorem deploy_model_trace_first (oracle : AwsOracle) (role : String) (sess : Session)
    (model_id model_version instance_type endpoint_pfx : String) :
    BoundaryCall.modelUrisRetrieve model_id model_version sess.boto_region_name ∈
      (deploy_model oracle role sess model_id model_version instance_type
        endpoint_pfx).2 := by
  unfold deploy_model
  rcases h1 : oracle.model_uris_retrieve model_id model_version sess.boto_region_name
      with e | u <;> simp only [h1]
  · simp
  rcases h2 : oracle.image_uris_retrieve model_id model_version sess.boto_region_name
      with e | i <;> simp only [h2]
  · simp
  rcases h3 : oracle.model_create i u role with e | mdl <;> simp only [h3]
  · simp
  rcases h4 : oracle.model_deploy mdl 1 instance_type
      (endpoint_name_of endpoint_pfx model_id model_version) with e | p <;>
    simp only [h4]
  · simp
  rcases h5 : oracle.delete_model p with e | u5 <;> simp only [h5] <;> simp

/-- Every `modelCreate` boundary call issued by `deploy_model` passes
exactly the `role` argument `deploy_model` was given. -/
theorem deploy_model_create_role (oracle : AwsOracle) (role : String) (sess : Session)
    (model_id model_version instance_type endpoint_pfx img dat rol : String)
    (h : BoundaryCall.modelCreate img dat rol ∈
      (deploy_model oracle role sess model_id model_version instance_type
        endpoint_pfx).2) :
    rol = role := by
  unfold deploy_model at h
  rcases h1 : oracle.model_uris_retrieve model_id model_version sess.boto_region_name
      with e | u <;> simp only [h1] at h
  · simp at h
  rcases h2 : oracle.image_uris_retrieve model_id model_version sess.boto_region_name
      with e | i <;> simp only [h2] at h
  · simp at h
  rcases h3 : oracle.model_create i u role with e | mdl <;> simp only [h3] at h
  · simp at h
    exact h.2.2
  rcases h4 : oracle.model_deploy mdl 1 instance_type
      (endpoint_name_of endpoint_pfx model_id model_version) with e | p <;>
    simp only [h4] at h
  · simp at h
    exact h.2.2
  rcases h5 : oracle.delete_model p with e | u5 <;> simp only [h5] at h <;>
    · simp at h
      exact h.2.2

/-- C1: every exception the external service boundary raises during
artifact-URI retrieval, image-URI retrieval, model construction or
endpoint creation is caught by `deploy_model`, which then returns the
failure signal `none`.  (The embedding returns `Option EndpointInfo`,
i.e. `deploy_model` is total and never propagates a raised fault.) -/
theorem deploy_model_catches_faults (oracle : AwsOracle) (role : String) (sess : Session)
    (model_id model_version instance_type endpoint_pfx : String) :
    (∀ e, oracle.model_uris_retrieve model_id model_version sess.boto_region_name =
        .error e →
      (deploy_model oracle role sess model_id model_version instance_type
        endpoint_pfx).1 = none) ∧
    (∀ e, oracle.image_uris_retrieve model_id model_version sess.boto_region_name =
        .error e →
      (deploy_model oracle role sess model_id model_version instance_type
        endpoint_pfx).1 = none) ∧
    (∀ u i e, oracle.model_uris_retrieve model_id model_version sess.boto_region_name =
        .ok u →
      oracle.image_uris_retrieve model_id model_version sess.boto_region_name = .ok i →
      oracle.model_create i u role = .error e →
      (deploy_model oracle role sess model_id model_version instance_type
        endpoint_pfx).1 = none) ∧
    (∀ u i mdl e,
      oracle.model_uris_retrieve model_id model_version sess.boto_region_name = .ok u →
      oracle.image_uris_retrieve model_id model_version sess.boto_region_name = .ok i →
      oracle.model_create i u role = .ok mdl →
      oracle.model_deploy mdl 1 instance_type
        (endpoint_name_of endpoint_pfx model_id model_version) = .error e →
      (deploy_model oracle role sess model_id model_version instance_type
        endpoint_pfx).1 = none) := by
  refine ⟨?_, ?_, ?_, ?_⟩
  · intro e h1
    simp [deploy_model, h1]
  · intro e h2
    rcases h1 : oracle.model_uris_retrieve model_id model_version
        sess.boto_region_name with e1 | u
    · simp [deploy_model, h1]
    · simp [deploy_model, h1, h2]
  · intro u i e h1 h2 h3
    simp [deploy_model, h1, h2, h3]
  · intro u i mdl e h1 h2 h3 h4
    simp [deploy_model, h1, h2, h3, h4]

/-- C10: if the post-deploy local-handle cleanup `delete_model` raises
after the platform confirmed the endpoint live (`model_deploy` returned
normally), `deploy_model` still returns the failure signal `none`, so
the live endpoint is reported as a failed deployment. -/
theorem delete_model_fault_drops_live_endpoint (oracle : AwsOracle) (role : String)
    (sess : Session) (model_id model_version instance_type endpoint_pfx u i : String)
    (mdl : ModelHandle) (p : Predictor) (e : PyExc)
    (h1 : oracle.model_uris_retrieve model_id model_version sess.boto_region_name = .ok u)
    (h2 : oracle.image_uris_retrieve model_id model_version sess.boto_region_name = .ok i)
    (h3 : oracle.model_create i u role = .ok mdl)
    (h4 : oracle.model_deploy mdl 1 instance_type
      (endpoint_name_of endpoint_pfx model_id model_version) = .ok p)
    (h5 : oracle.delete_model p = .error e) :
    (deploy_model oracle role sess model_id model_version instance_type
      endpoint_pfx).1 = none ∧
    BoundaryCall.modelDeploy 1 instance_type
        (endpoint_name_of endpoint_pfx model_id model_version) ∈
      (deploy_model oracle role sess model_id model_version instance_type
        endpoint_pfx).2 := by
  constructor
  · simp [deploy_model, h1, h2, h3, h4, h5]
  · simp [deploy_model, h1, h2, h3, h4, h5]

/-- Witness for the C1 theorem: on `deployFailOracle` the artifact
retrieval raises and `deploy_model` returns `none`. -/
theorem deploy_model_catches_faults_witness :
    (deploy_model deployFailOracle DEFAULT_EXECUTION_ROLE usEast NEMOTRON_MODEL_ID
      "1.0.0" "ml.g5.2xlarge" "mindbridge-llm").1 = none :=
  (deploy_model_catches_faults deployFailOracle DEFAULT_EXECUTION_ROLE usEast
    NEMOTRON_MODEL_ID "1.0.0" "ml.g5.2xlarge" "mindbridge-llm").1
    (.clientError "AccessDenied") rfl

/-- Witness for the C4 theorem at a concrete input triple containing
underscores. -/
theorem endpoint_name_normalized_witness :
    endpoint_name_of "mindbridge_llm" "model_id_a" "1.0_rc1" =
      take63 (replaceUnderscores ("mindbridge_llm" ++ "-" ++ "model_id_a" ++ "-" ++
        "1.0_rc1")) ∧
    (endpoint_name_of "mindbridge_llm" "model_id_a" "1.0_rc1").length ≤ 63 ∧
    '_' ∉ (endpoint_name_of "mindbridge_llm" "model_id_a" "1.0_rc1").data :=
  endpoint_name_normalized "mindbridge_llm" "model_id_a" "1.0_rc1"

/-- Witness for the C5 theorem: equal triples give equal names, and on
`okOracle` the returned record carries the computed name. -/
theorem endpoint_name_deterministic_witness :
    endpoint_name_of "mindbridge-llm" NEMOTRON_MODEL_ID "1.0.0" =
      endpoint_name_of "mindbridge-llm" NEMOTRON_MODEL_ID "1.0.0" ∧
    ({ model_id := NEMOTRON_MODEL_ID, model_version := "1.0.0",
       endpoint_name := endpoint_name_of "mindbridge-llm" NEMOTRON_MODEL_ID "1.0.0",
       instance_type := "ml.g5.2xlarge", region := "us-east-1" } :
        EndpointInfo).endpoint_name =
      endpoint_name_of "mindbridge-llm" NEMOTRON_MODEL_ID "1.0.0" :=
  ⟨(endpoint_name_deterministic "mindbridge-llm" NEMOTRON_MODEL_ID "1.0.0"
      "mindbridge-llm" NEMOTRON_MODEL_ID "1.0.0" rfl rfl rfl).1,
   (endpoint_name_deterministic "mindbridge-llm" NEMOTRON_MODEL_ID "1.0.0"
      "mindbridge-llm" NEMOTRON_MODEL_ID "1.0.0" rfl rfl rfl).2
     okOracle DEFAULT_EXECUTION_ROLE usEast "ml.g5.2xlarge" _ rfl⟩

/-- Witness for the C8 theorem at two records sharing region and name. -/
theorem endpoint_url_from_region_and_name_witness :
    ({ model_id := "a", model_version := "1", endpoint_name := "ep",
       instance_type := "x", region := "us-east-1" } :
        EndpointInfo).endpoint_url =
      ({ model_id := "b", model_version := "2", endpoint_name := "ep",
         instance_type := "y", region := "us-east-1" } :
          EndpointInfo).endpoint_url ∧
    ({ model_id := "a", model_version := "1", endpoint_name := "ep",
       instance_type := "x", region := "us-east-1" } :
        EndpointInfo).endpoint_url =
      "https://runtime.sagemaker." ++ "us-east-1" ++ ".amazonaws.com/endpoints/" ++
        "ep" ++ "/invocations" :=
  endpoint_url_from_region_and_name
    { model_id := "a", model_version := "1", endpoint_name := "ep",
      instance_type := "x", region := "us-east-1" }
    { model_id := "b", model_version := "2", endpoint_name := "ep",
      instance_type := "y", region := "us-east-1" } rfl rfl

/-- Witness for the C10 theorem on `deleteFailOracle`: the endpoint goes
live, the cleanup raises, and the record is dropped. -/
theorem delete_model_fault_drops_live_endpoint_witness :
    (deploy_model deleteFailOracle DEFAULT_EXECUTION_ROLE usEast NEMOTRON_MODEL_ID
      "1.0.0" "ml.g5.2xlarge" "mindbridge-llm").1 = none ∧
    BoundaryCall.modelDeploy 1 "ml.g5.2xlarge"
        (endpoint_name_of "mindbridge-llm" NEMOTRON_MODEL_ID "1.0.0") ∈
      (deploy_model deleteFailOracle DEFAULT_EXECUTION_ROLE usEast NEMOTRON_MODEL_ID
        "1.0.0" "ml.g5.2xlarge" "mindbridge-llm").2 :=
  delete_model_fault_drops_live_endpoint deleteFailOracle DEFAULT_EXECUTION_ROLE
    usEast NEMOTRON_MODEL_ID "1.0.0" "ml.g5.2xlarge" "mindbridge-llm"
    "s3://artifact" "ecr://image" { handle := 7 } { handle := 8 }
    (.other "delete failed") rfl rfl rfl rfl rfl

/-- When both version resolutions succeed, `main`'s boundary-call trace
is the two catalogue lookups followed by the two deployments' traces. -/
theorem main_calls_resolved (env : PyEnv) (oracle : AwsOracle) (sess : Session)
    (lv ev : String)
    (hN : resolve_model_version oracle NEMOTRON_MODEL_ID sess.boto_region_name = .ok lv)
    (hE : resolve_model_version oracle EMBED_MODEL_ID sess.boto_region_name = .ok ev) :
    (NimDeploy.main env oracle sess).calls =
      [BoundaryCall.getModelSpecs NEMOTRON_MODEL_ID sess.boto_region_name,
       BoundaryCall.getModelSpecs EMBED_MODEL_ID sess.boto_region_name] ++
      (deploy_model oracle (EXECUTION_ROLE env) sess NEMOTRON_MODEL_ID lv
        (LLM_INSTANCE env) "mindbridge-llm").2 ++
      (deploy_model oracle (EXECUTION_ROLE env) sess EMBED_MODEL_ID ev
        (EMBED_INSTANCE env) "mindbridge-embed").2 := by
  simp only [NimDeploy.main, hN, hE]
  split <;> rfl

/-- When both version resolutions succeed, `main`'s result is the normal
return determined by the two `deploy_model` results. -/
theorem main_result_resolved (env : PyEnv) (oracle : AwsOracle) (sess : Session)
    (lv ev : String)
    (hN : resolve_model_version oracle NEMOTRON_MODEL_ID sess.boto_region_name = .ok lv)
    (hE : resolve_model_version oracle EMBED_MODEL_ID sess.boto_region_name = .ok ev) :
    ∀ (o₁ o₂ : Option EndpointInfo) (t₁ t₂ : List BoundaryCall),
    deploy_model oracle (EXECUTION_ROLE env) sess NEMOTRON_MODEL_ID lv
      (LLM_INSTANCE env) "mindbridge-llm" = (o₁, t₁) →
    deploy_model oracle (EXECUTION_ROLE env) sess EMBED_MODEL_ID ev
      (EMBED_INSTANCE env) "mindbridge-embed" = (o₂, t₂) →
    (NimDeploy.main env oracle sess).result = .ok
      { endpoints := o₁.toList ++ o₂.toList,
        summary :=
          if (o₁.toList ++ o₂.toList).isEmpty then none
          else some { dir := env.cwd, filename := "nim_endpoints.json",
                      truncate := true,
                      content := (o₁.toList ++ o₂.toList).map endpoint_dict },
        printed_failure := (o₁.toList ++ o₂.toList).isEmpty } := by
  intro o₁ o₂ t₁ t₂ h1 h2
  simp only [NimDeploy.main, hN, hE, h1, h2]
  split
  next hc => simp [hc]
  next hc => simp [hc]

/-- Every `modelCreate` boundary call of a whole run passes the
module-level `EXECUTION_ROLE` of the process environment. -/
theorem main_create_role (env : PyEnv) (oracle : AwsOracle) (sess : Session)
    (img dat rol : String)
    (h : BoundaryCall.modelCreate img dat rol ∈ (NimDeploy.main env oracle sess).calls) :
    rol = EXECUTION_ROLE env := by
  rcases hN : resolve_model_version oracle NEMOTRON_MODEL_ID sess.boto_region_name
      with e | lv
  · have hc : (NimDeploy.main env oracle sess).calls =
        [BoundaryCall.getModelSpecs NEMOTRON_MODEL_ID sess.boto_region_name] := by
      simp [NimDeploy.main, hN]
    rw [hc] at h
    simp at h
  rcases hE : resolve_model_version oracle EMBED_MODEL_ID sess.boto_region_name
      with e | ev
  · have hc : (NimDeploy.main env oracle sess).calls =
        [BoundaryCall.getModelSpecs NEMOTRON_MODEL_ID sess.boto_region_name,
         BoundaryCall.getModelSpecs EMBED_MODEL_ID sess.boto_region_name] := by
      simp [NimDeploy.main, hN, hE]
    rw [hc] at h
    simp at h
  rw [main_calls_resolved env oracle sess lv ev hN hE] at h
  rcases List.mem_append.mp h with h1 | h1
  · rcases List.mem_append.mp h1 with h2 | h2
    · simp at h2
    · exact deploy_model_create_role _ _ _ _ _ _ _ _ _ _ h2
  · exact deploy_model_create_role _ _ _ _ _ _ _ _ _ _ h1

/-- C6: a version-resolution fault aborts the whole run: `main` ends with
that same uncaught exception, no fallback version is used, and the
boundary-call trace holds only catalogue lookups — no deployment call is
issued for any model. -/
theorem resolution_fault_aborts_run (env : PyEnv) (oracle : AwsOracle) (sess : Session) :
    (∀ e, resolve_model_version oracle NEMOTRON_MODEL_ID sess.boto_region_name =
        .error e →
      (NimDeploy.main env oracle sess).result = .error e ∧
      (NimDeploy.main env oracle sess).calls =
        [BoundaryCall.getModelSpecs NEMOTRON_MODEL_ID sess.boto_region_name]) ∧
    (∀ lv e, resolve_model_version oracle NEMOTRON_MODEL_ID sess.boto_region_name =
        .ok lv →
      resolve_model_version oracle EMBED_MODEL_ID sess.boto_region_name = .error e →
      (NimDeploy.main env oracle sess).result = .error e ∧
      (NimDeploy.main env oracle sess).calls =
        [BoundaryCall.getModelSpecs NEMOTRON_MODEL_ID sess.boto_region_name,
         BoundaryCall.getModelSpecs EMBED_MODEL_ID sess.boto_region_name]) := by
  constructor
  · intro e h
    constructor <;> simp [NimDeploy.main, h]
  · intro lv e hN hE
    constructor <;> simp [NimDeploy.main, hN, hE]

/-- Witness for the C6 theorem: on `resolveFailOracle` the run aborts
with the catalogue exception before any deployment call. -/
theorem resolution_fault_aborts_run_witness :
    (NimDeploy.main noEnv resolveFailOracle usEast).result =
      .error (.clientError "UnknownModel") ∧
    (NimDeploy.main noEnv resolveFailOracle usEast).calls =
      [BoundaryCall.getModelSpecs NEMOTRON_MODEL_ID "us-east-1"] :=
  (resolution_fault_aborts_run noEnv resolveFailOracle usEast).1
    (.clientError "UnknownModel") rfl

/-- C3 (amended): if zero deployments succeed, no summary artifact is
written and the failure is reported on the console (`printed_failure`),
but the process terminates with exit status 0 — `main` just returns, so
no non-zero process outcome is produced. -/
theorem zero_success_behavior (env : PyEnv) (oracle : AwsOracle) (sess : Session)
    (r : MainResult) (h : (NimDeploy.main env oracle sess).result = .ok r)
    (he : r.endpoints = []) :
    r.summary = none ∧ r.printed_failure = true ∧
    processExitCode (NimDeploy.main env oracle sess) = 0 := by
  have hexit : processExitCode (NimDeploy.main env oracle sess) = 0 := by
    simp [processExitCode, h]
  rcases hN : resolve_model_version oracle NEMOTRON_MODEL_ID sess.boto_region_name
      with e | lv
  · rw [show (NimDeploy.main env oracle sess).result = .error e by
      simp [NimDeploy.main, hN]] at h
    simp at h
  rcases hE : resolve_model_version oracle EMBED_MODEL_ID sess.boto_region_name
      with e | ev
  · rw [show (NimDeploy.main env oracle sess).result = .error e by
      simp [NimDeploy.main, hN, hE]] at h
    simp at h
  rcases hd1 : deploy_model oracle (EXECUTION_ROLE env) sess NEMOTRON_MODEL_ID lv
      (LLM_INSTANCE env) "mindbridge-llm" with ⟨o₁, t₁⟩
  rcases hd2 : deploy_model oracle (EXECUTION_ROLE env) sess EMBED_MODEL_ID ev
      (EMBED_INSTANCE env) "mindbridge-embed" with ⟨o₂, t₂⟩
  have hr := main_result_resolved env oracle sess lv ev hN hE o₁ o₂ t₁ t₂ hd1 hd2
  rw [h] at hr
  injection hr with hr'
  subst hr'
  have he' : o₁.toList ++ o₂.toList = [] := by simpa using he
  refine ⟨?_, ?_, hexit⟩ <;> simp [he']

/-- Counterexample for C3 as stated: with both deployments failing the
run ends with zero successes, writes no summary, yet the process exit
status is 0, not the non-zero outcome the claim requires. -/
theorem zero_success_zero_exit_cex :
    (NimDeploy.main noEnv deployFailOracle usEast).result = .ok emptyResult ∧
    emptyResult.endpoints = [] ∧ emptyResult.summary = none ∧
    processExitCode (NimDeploy.main noEnv deployFailOracle usEast) = 0 :=
  ⟨rfl, rfl, rfl, rfl⟩

/-- Witness for the C3 amended theorem on the concrete failing run. -/
theorem zero_success_behavior_witness :
    emptyResult.summary = none ∧ emptyResult.printed_failure = true ∧
    processExitCode (NimDeploy.main noEnv deployFailOracle usEast) = 0 :=
  zero_success_behavior noEnv deployFailOracle usEast emptyResult rfl rfl

/-- C7: with at least one success the summary file is written in the
current working directory as `nim_endpoints.json`, opened in truncating
(`"w"`, overwrite-without-prompting) mode, and its content is the result
list in order, each element exactly the record's five stored attributes
(`__dict__`), with no `endpoint_url` key. -/
theorem summary_artifact_shape (env : PyEnv) (oracle : AwsOracle) (sess : Session)
    (r : MainResult) (h : (NimDeploy.main env oracle sess).result = .ok r)
    (hne : r.endpoints ≠ []) :
    r.summary = some { dir := env.cwd, filename := "nim_endpoints.json",
                       truncate := true,
                       content := r.endpoints.map endpoint_dict } ∧
    ∀ e : EndpointInfo,
      (endpoint_dict e).map Prod.fst =
        ["model_id", "model_version", "endpoint_name", "instance_type", "region"] ∧
      "endpoint_url" ∉ (endpoint_dict e).map Prod.fst := by
  constructor
  · rcases hN : resolve_model_version oracle NEMOTRON_MODEL_ID sess.boto_region_name
        with e | lv
    · rw [show (NimDeploy.main env oracle sess).result = .error e by
        simp [NimDeploy.main, hN]] at h
      simp at h
    rcases hE : resolve_model_version oracle EMBED_MODEL_ID sess.boto_region_name
        with e | ev
    · rw [show (NimDeploy.main env oracle sess).result = .error e by
        simp [NimDeploy.main, hN, hE]] at h
      simp at h
    rcases hd1 : deploy_model oracle (EXECUTION_ROLE env) sess NEMOTRON_MODEL_ID lv
        (LLM_INSTANCE env) "mindbridge-llm" with ⟨o₁, t₁⟩
    rcases hd2 : deploy_model oracle (EXECUTION_ROLE env) sess EMBED_MODEL_ID ev
        (EMBED_INSTANCE env) "mindbridge-embed" with ⟨o₂, t₂⟩
    have hr := main_result_resolved env oracle sess lv ev hN hE o₁ o₂ t₁ t₂ hd1 hd2
    rw [h] at hr
    injection hr with hr'
    subst hr'
    have hne' : o₁.toList ++ o₂.toList ≠ [] := by simpa using hne
    have hEmp : (o₁.toList ++ o₂.toList).isEmpty = false := by
      simp [List.isEmpty_iff, hne']
    simp [hEmp]
  · intro e
    refine ⟨rfl, ?_⟩
    simp only [endpoint_dict, List.map_cons, List.map_nil]
    decide

/-- Witness for the C7 theorem on the fully successful concrete run. -/
theorem summary_artifact_shape_witness :
    fullResult.summary = some { dir := "/work", filename := "nim_endpoints.json",
                                truncate := true,
                                content := fullResult.endpoints.map endpoint_dict } :=
  (summary_artifact_shape noEnv okOracle usEast fullResult rfl (by decide)).1

/-- C2: with both versions resolved, if exactly one of the two
deployments fails the result list holds exactly the surviving record (in
its declaration position), and both deployments are always attempted —
each model's artifact-retrieval call appears in the run's trace. -/
theorem single_failure_keeps_other (env : PyEnv) (oracle : AwsOracle) (sess : Session)
    (lv ev : String) (a b : EndpointInfo)
    (hN : resolve_model_version oracle NEMOTRON_MODEL_ID sess.boto_region_name = .ok lv)
    (hE : resolve_model_version oracle EMBED_MODEL_ID sess.boto_region_name = .ok ev) :
    ((deploy_model oracle (EXECUTION_ROLE env) sess NEMOTRON_MODEL_ID lv
        (LLM_INSTANCE env) "mindbridge-llm").1 = some a →
      (deploy_model oracle (EXECUTION_ROLE env) sess EMBED_MODEL_ID ev
        (EMBED_INSTANCE env) "mindbridge-embed").1 = none →
      (NimDeploy.main env oracle sess).result.map MainResult.endpoints = .ok [a]) ∧
    ((deploy_model oracle (EXECUTION_ROLE env) sess NEMOTRON_MODEL_ID lv
        (LLM_INSTANCE env) "mindbridge-llm").1 = none →
      (deploy_model oracle (EXECUTION_ROLE env) sess EMBED_MODEL_ID ev
        (EMBED_INSTANCE env) "mindbridge-embed").1 = some b →
      (NimDeploy.main env oracle sess).result.map MainResult.endpoints = .ok [b]) ∧
    BoundaryCall.modelUrisRetrieve NEMOTRON_MODEL_ID lv sess.boto_region_name ∈
      (NimDeploy.main env oracle sess).calls ∧
    BoundaryCall.modelUrisRetrieve EMBED_MODEL_ID ev sess.boto_region_name ∈
      (NimDeploy.main env oracle sess).calls := by
  refine ⟨?_, ?_, ?_, ?_⟩
  · intro ha hb
    rcases hd1 : deploy_model oracle (EXECUTION_ROLE env) sess NEMOTRON_MODEL_ID lv
        (LLM_INSTANCE env) "mindbridge-llm" with ⟨o₁, t₁⟩
    rcases hd2 : deploy_model oracle (EXECUTION_ROLE env) sess EMBED_MODEL_ID ev
        (EMBED_INSTANCE env) "mindbridge-embed" with ⟨o₂, t₂⟩
    rw [hd1] at ha
    rw [hd2] at hb
    simp only at ha hb
    subst ha
    subst hb
    rw [main_result_resolved env oracle sess lv ev hN hE (some a) none t₁ t₂ hd1 hd2]
    simp [Except.map]
  · intro ha hb
    rcases hd1 : deploy_model oracle (EXECUTION_ROLE env) sess NEMOTRON_MODEL_ID lv
        (LLM_INSTANCE env) "mindbridge-llm" with ⟨o₁, t₁⟩
    rcases hd2 : deploy_model oracle (EXECUTION_ROLE env) sess EMBED_MODEL_ID ev
        (EMBED_INSTANCE env) "mindbridge-embed" with ⟨o₂, t₂⟩
    rw [hd1] at ha
    rw [hd2] at hb
    simp only at ha hb
    subst ha
    subst hb
    rw [main_result_resolved env oracle sess lv ev hN hE none (some b) t₁ t₂ hd1 hd2]
    simp [Except.map]
  · rw [main_calls_resolved env oracle sess lv ev hN hE]
    exact List.mem_append_left _ (List.mem_append_right _
      (deploy_model_trace_first oracle (EXECUTION_ROLE env) sess NEMOTRON_MODEL_ID lv
        (LLM_INSTANCE env) "mindbridge-llm"))
  · rw [main_calls_resolved env oracle sess lv ev hN hE]
    exact List.mem_append_right _
      (deploy_model_trace_first oracle (EXECUTION_ROLE env) sess EMBED_MODEL_ID ev
        (EMBED_INSTANCE env) "mindbridge-embed")

/-- Witness for the C2 theorem: on `embedFailOracle` the reasoning
model survives alone and is the single entry of the result list. -/
theorem single_failure_keeps_other_witness :
    (NimDeploy.main noEnv embedFailOracle usEast).result.map MainResult.endpoints =
      .ok [llmRec] :=
  (single_failure_keeps_other noEnv embedFailOracle usEast "1.0.0" "1.0.0" llmRec
    llmRec rfl rfl).1 rfl rfl

/-- C9: the two instance types and the execution role are overridable
through their environment variables, fall back to the baked-in defaults
when unset, and with `SAGEMAKER_EXECUTION_ROLE` unset every `modelCreate`
boundary call of a whole run passes `DEFAULT_EXECUTION_ROLE`. -/
theorem config_overrides (env : PyEnv) :
    (∀ v, env.getenv "NIM_LLM_INSTANCE_TYPE" = some v → LLM_INSTANCE env = v) ∧
    (env.getenv "NIM_LLM_INSTANCE_TYPE" = none →
      LLM_INSTANCE env = "ml.g5.2xlarge") ∧
    (∀ v, env.getenv "NIM_EMBED_INSTANCE_TYPE" = some v → EMBED_INSTANCE env = v) ∧
    (env.getenv "NIM_EMBED_INSTANCE_TYPE" = none →
      EMBED_INSTANCE env = "ml.g5.xlarge") ∧
    (∀ v, env.getenv "SAGEMAKER_EXECUTION_ROLE" = some v → EXECUTION_ROLE env = v) ∧
    (env.getenv "SAGEMAKER_EXECUTION_ROLE" = none →
      EXECUTION_ROLE env = DEFAULT_EXECUTION_ROLE ∧
      ∀ (oracle : AwsOracle) (sess : Session) (img dat rol : String),
        BoundaryCall.modelCreate img dat rol ∈
          (NimDeploy.main env oracle sess).calls →
        rol = DEFAULT_EXECUTION_ROLE) := by
  refine ⟨?_, ?_, ?_, ?_, ?_, ?_⟩
  · intro v h
    simp [LLM_INSTANCE, pyGetenv, h]
  · intro h
    simp [LLM_INSTANCE, pyGetenv, h]
  · intro v h
    simp [EMBED_INSTANCE, pyGetenv, h]
  · intro h
    simp [EMBED_INSTANCE, pyGetenv, h]
  · intro v h
    simp [EXECUTION_ROLE, pyGetenv, h]
  · intro h
    have hrole : EXECUTION_ROLE env = DEFAULT_EXECUTION_ROLE := by
      simp [EXECUTION_ROLE, pyGetenv, h]
    refine ⟨hrole, ?_⟩
    intro oracle sess img dat rol hmem
    rw [main_create_role env oracle sess img dat rol hmem, hrole]

/-- Witness for the C9 theorem: defaults with the empty environment,
override with `setRoleEnv`. -/
theorem config_overrides_witness :
    LLM_INSTANCE noEnv = "ml.g5.2xlarge" ∧ EMBED_INSTANCE noEnv = "ml.g5.xlarge" ∧
    EXECUTION_ROLE noEnv = DEFAULT_EXECUTION_ROLE ∧
    EXECUTION_ROLE setRoleEnv = "arn:aws:iam::000000000000:role/custom" :=
  ⟨(config_overrides noEnv).2.1 rfl,
   (config_overrides noEnv).2.2.2.1 rfl,
   ((config_overrides noEnv).2.2.2.2.2 rfl).1,
   (config_overrides setRoleEnv).2.2.2.2.1 "arn:aws:iam::000000000000:role/custom" rfl⟩
